import Mathlib

/-!
Shallow embedding of the multi-provider AI completion gateway in
src/examples/python-ai-integration.py (class AIService), together with
theorems checking the natural-language specification against it.

Modelling conventions:
- The provider HTTP client is an oracle `api : CallArgs -> CallOutcome`;
  `CallOutcome.raised` models a Python exception escaping the client call,
  `CallOutcome.reply` models a returned response object.
- Timestamps are omitted: every envelope constructor in the source stamps
  `datetime.now()`, which is wall-clock state outside the functional model,
  and the spec compares envelopes up to scheduling and time.
- Python truthiness of an optional string (None and "" falsy) is modelled
  by `contentTruthy`; `x or y` on the optional model argument by `pyOrModel`.
- Python `str.strip()` is modelled by `pyStrip` over the whitespace set that
  `str.isspace` recognises; `str.lower()` by `lowerStr` (ASCII case map, which
  agrees with Python on all ASCII text, and all classification markers are
  ASCII).
-/

namespace AIGateway

/-- One chat message, a `{role, content}` pair as in the Python dicts. -/
structure Message where
  role : String
  content : String
deriving DecidableEq, Repr

/-- The `message` object inside one choice of a provider reply;
`content` may be absent (`None`). -/
structure ChoiceMessage where
  content : Option String
deriving DecidableEq, Repr

/-- One element of `response.choices`. -/
structure Choice where
  message : ChoiceMessage
  finishReason : Option String
deriving DecidableEq, Repr

/-- Token accounting (`response.usage`), passed through opaquely. -/
structure Usage where
  promptTokens : Nat
  completionTokens : Nat
  totalTokens : Nat
deriving DecidableEq, Repr

/-- A provider reply object: `choices` list and optional `usage`. -/
structure ChatReply where
  choices : List Choice
  usage : Option Usage
deriving DecidableEq, Repr

/-- Outcome of one `client.chat.completions.create(...)` call: either a
reply object or an exception carrying its string rendering `str(error)`. -/
inductive CallOutcome where
  | reply (r : ChatReply)
  | raised (msg : String)
deriving DecidableEq, Repr

/-- True when the outcome is a returned reply (the call did not raise). -/
def CallOutcome.isReply : CallOutcome → Bool
  | CallOutcome.reply _ => true
  | CallOutcome.raised _ => false

/-- The keyword arguments the gateway hands to the provider client.
`temperature` is `none` where the source omits the argument
(the `validate_provider` call). -/
structure CallArgs where
  model : String
  messages : List Message
  temperature : Option Rat
  maxTokens : Nat
deriving DecidableEq, Repr

/-- The `data` field of an envelope: the chat-completion payload dict, or
the boolean `True` that `validate_provider` returns. -/
structure SuccessPayload where
  content : String
  usage : Option Usage
  finishReason : Option String
deriving DecidableEq, Repr

/-- Tagged value for the `Any`-typed `data` field of `AIResponse`. -/
inductive RespData where
  | payload (d : SuccessPayload)
  | boolVal (b : Bool)
deriving DecidableEq, Repr

/-- The `AIResponse` dataclass, minus the timestamp (see module comment). -/
structure AIResponse where
  success : Bool
  data : Option RespData
  error : Option String
  provider : Option String
  model : Option String
  code : Option String
deriving DecidableEq, Repr

/-- `AIService._create_error_response(error, provider, code)`. -/
def createErrorResponse (error : String) (provider : Option String)
    (code : Option String) : AIResponse :=
  { success := false, data := none, error := some error,
    provider := provider, model := none, code := code }

/-- `AIService._create_success_response(data, provider, model)`. -/
def createSuccessResponse (data : RespData) (provider : String)
    (model : String) : AIResponse :=
  { success := true, data := some data, error := none,
    provider := some provider, model := some model, code := none }

/-- Does the character list `needle` start the list `hay`? -/
def leadsWith : List Char → List Char → Bool
  | [], _ => true
  | _ :: _, [] => false
  | a :: as, b :: bs => a == b && leadsWith as bs

/-- Does `needle` occur as a contiguous sublist of `hay`?
Models the Python expression `needle in hay` on strings. -/
def hasSub (hay needle : List Char) : Bool :=
  match hay with
  | [] => leadsWith needle []
  | c :: rest => leadsWith needle (c :: rest) || hasSub rest needle

/-- Substring containment on strings, Python `sub in s`. -/
def strHasSub (hay needle : String) : Bool :=
  hasSub hay.data needle.data

/-- Python `str.lower()` restricted to the ASCII case map; agrees with
Python on all ASCII input, and every classification marker is ASCII. -/
def lowerStr (s : String) : String :=
  String.mk (s.data.map Char.toLower)

/-- The whitespace set of Python `str.isspace` (ASCII whitespace, the C1
separators, and the Unicode space characters). -/
def pySpace (c : Char) : Bool :=
  c == ' ' || c == '\t' || c == '\n' || c == '\r' || c == '\x0b' || c == '\x0c' ||
  c == '\x1c' || c == '\x1d' || c == '\x1e' || c == '\x1f' ||
  c == '\x85' || c == '\xa0' || c == '\u1680' ||
  ('\u2000' ≤ c && c ≤ '\u200a') || c == '\u2028' || c == '\u2029' ||
  c == '\u202f' || c == '\u205f' || c == '\u3000'

/-- Python `str.strip()` on a character list: drop `pySpace` characters
from both ends. -/
def pyStripList (l : List Char) : List Char :=
  ((l.dropWhile pySpace).reverse.dropWhile pySpace).reverse

/-- Python `str.strip()`. -/
def pyStrip (s : String) : String :=
  String.mk (pyStripList s.data)

/-- Python truthiness of an optional string: `None` and `""` are falsy. -/
def contentTruthy : Option String → Bool
  | none => false
  | some s => !(s == "")

/-- Python `model or default` on the optional model argument:
`None` and `""` fall back to the default. -/
def pyOrModel : Option String → String → String
  | none, d => d
  | some m, d => if m == "" then d else m

/-- A credential counts per `_initialize_clients`: the environment value is
present, truthy, and truthy after `strip()`. -/
def keyUsable : Option String → Bool
  | none => false
  | some k => !(k == "") && !(pyStrip k == "")

/-- Process state of `AIService` after `__init__`: whether each client
handle exists, and the `active_provider` field. -/
structure AIService where
  openaiClient : Bool
  openrouterClient : Bool
  activeProvider : Option String
deriving DecidableEq, Repr

/-- `AIService._initialize_clients`: a client handle exists when the key is
usable and the client constructor did not raise (`ctorOk` models the
`try/except` around `openai.OpenAI(...)`); then the active provider prefers
OpenRouter over OpenAI. -/
def initializeClients (openaiKey openrouterKey : Option String)
    (openaiCtorOk openrouterCtorOk : Bool) : AIService :=
  let oa := keyUsable openaiKey && openaiCtorOk
  let orr := keyUsable openrouterKey && openrouterCtorOk
  { openaiClient := oa, openrouterClient := orr,
    activeProvider :=
      if orr then some "openrouter"
      else if oa then some "openai"
      else none }

/-- `AIService._get_client(provider)`: resolve `auto` to the active
provider, then return the matching handle (identified here by its provider
name) when it exists. -/
def getClient (s : AIService) (provider : String) : Option String :=
  let target : Option String :=
    if provider == "auto" then s.activeProvider else some provider
  match target with
  | none => none
  | some t =>
    if t == "openai" && s.openaiClient then some "openai"
    else if t == "openrouter" && s.openrouterClient then some "openrouter"
    else none

/-- The `models` table of `PROVIDER_CONFIGS` for one provider
(empty for identifiers absent from the table). -/
def providerModels (provider : String) : List (String × String) :=
  if provider == "openai" then
    [("chat", "gpt-3.5-turbo"), ("chat_advanced", "gpt-4")]
  else if provider == "openrouter" then
    [("chat", "microsoft/wizardlm-2-8x22b"),
     ("chat_advanced", "anthropic/claude-3.5-sonnet"),
     ("chat_fast", "meta-llama/llama-3.1-8b-instruct:free")]
  else []

/-- `AIService._get_model(provider, model_type)`:
`models.get(model_type, models.get('chat', 'gpt-3.5-turbo'))`. -/
def getModel (provider modelType : String) : String :=
  let models := providerModels provider
  match models.lookup modelType with
  | some m => m
  | none =>
    match models.lookup "chat" with
    | some m => m
    | none => "gpt-3.5-turbo"

/-- The arguments `chat_completion` / `chat_completion_sync` pass to
`client.chat.completions.create`: resolved model, the caller message list
unmodified, temperature, max_tokens. -/
def chatCallArgs (providerName : String) (messages : List Message)
    (model : Option String) (temperature : Rat) (maxTokens : Nat) : CallArgs :=
  { model := pyOrModel model (getModel providerName "chat"),
    messages := messages,
    temperature := some temperature,
    maxTokens := maxTokens }

/-- `response.choices[0].message.content if response.choices else None`. -/
def replyContent (r : ChatReply) : Option String :=
  match r.choices with
  | [] => none
  | c :: _ => c.message.content

/-- `response.choices[0].finish_reason if response.choices else None`. -/
def replyFinishReason (r : ChatReply) : Option String :=
  match r.choices with
  | [] => none
  | c :: _ => c.finishReason

/-- The except-branch of the async `chat_completion`: classify the raw
error text by substring markers, first match wins. -/
def classifyChatError (providerName errStr : String) : AIResponse :=
  if strHasSub errStr "401" || strHasSub (lowerStr errStr) "invalid" then
    createErrorResponse "Invalid API key. Please check your credentials."
      (some providerName) (some "INVALID_API_KEY")
  else if strHasSub errStr "429" || strHasSub (lowerStr errStr) "rate limit" then
    createErrorResponse "Rate limit exceeded. Please try again later."
      (some providerName) (some "RATE_LIMIT")
  else if strHasSub errStr "500" || strHasSub errStr "502" || strHasSub errStr "503" then
    createErrorResponse "AI service temporarily unavailable. Please try again."
      (some providerName) (some "SERVICE_UNAVAILABLE")
  else
    createErrorResponse errStr (some providerName) (some "UNKNOWN_ERROR")

/-- Shared success/no-content handling of a returned reply, identical in
`chat_completion` and `chat_completion_sync` (the two method bodies are
textually the same up to the except handler). -/
def replyEnvelope (providerName selectedModel : String) (r : ChatReply) : AIResponse :=
  let content := replyContent r
  if contentTruthy content then
    createSuccessResponse
      (RespData.payload
        { content := pyStrip (content.getD ""),
          usage := r.usage,
          finishReason := replyFinishReason r })
      providerName selectedModel
  else
    createErrorResponse "No content returned from AI service" (some providerName) none

/-- `AIService.chat_completion` (the async method), as a function of the
service state, the request fields, and the provider-call oracle. -/
def chatCompletion (s : AIService) (messages : List Message) (provider : String)
    (model : Option String) (temperature : Rat) (maxTokens : Nat)
    (api : CallArgs → CallOutcome) : AIResponse :=
  match getClient s provider with
  | none =>
    createErrorResponse
      "No AI provider available. Please configure API keys in .env file." none none
  | some providerName =>
    let selectedModel := pyOrModel model (getModel providerName "chat")
    match api (chatCallArgs providerName messages model temperature maxTokens) with
    | CallOutcome.reply r => replyEnvelope providerName selectedModel r
    | CallOutcome.raised err => classifyChatError providerName err

/-- `AIService.chat_completion_sync`: same body, but the except handler
returns the raw error text with code `REQUEST_FAILED` and no
classification. -/
def chatCompletionSync (s : AIService) (messages : List Message) (provider : String)
    (model : Option String) (temperature : Rat) (maxTokens : Nat)
    (api : CallArgs → CallOutcome) : AIResponse :=
  match getClient s provider with
  | none =>
    createErrorResponse
      "No AI provider available. Please configure API keys in .env file." none none
  | some providerName =>
    let selectedModel := pyOrModel model (getModel providerName "chat")
    match api (chatCallArgs providerName messages model temperature maxTokens) with
    | CallOutcome.reply r => replyEnvelope providerName selectedModel r
    | CallOutcome.raised err =>
      createErrorResponse err (some providerName) (some "REQUEST_FAILED")

/-- The arguments `validate_provider` passes to the client: default chat
model, the single probe message, `max_tokens=5`, no temperature argument. -/
def validateCallArgs (providerName : String) : CallArgs :=
  { model := getModel providerName "chat",
    messages := [{ role := "user", content := "Hello" }],
    temperature := none,
    maxTokens := 5 }

/-- `AIService.validate_provider(provider)`. Note that the except branch
reports `provider` (the argument), while the no-content branch reports
`provider_name` (the resolved handle). -/
def validateProvider (s : AIService) (provider : String)
    (api : CallArgs → CallOutcome) : AIResponse :=
  match getClient s provider with
  | none =>
    createErrorResponse ("Provider " ++ provider ++ " not available or not configured")
      none none
  | some providerName =>
    let model := getModel providerName "chat"
    match api (validateCallArgs providerName) with
    | CallOutcome.reply r =>
      if contentTruthy (replyContent r) then
        createSuccessResponse (RespData.boolVal true) providerName model
      else
        createErrorResponse "Provider validation failed" (some providerName) none
    | CallOutcome.raised err =>
      createErrorResponse ("Provider validation failed: " ++ err)
        (some provider) (some "VALIDATION_FAILED")



/-! ## Shared helper lemmas -/

/-- Exactly-one-variant shape of an envelope: a success envelope carries
data and a model and no error and no code; a failure envelope carries an
error and no data and no model. -/
def envelopeOneVariant (r : AIResponse) : Prop :=
  (r.success = true → r.error = none ∧ r.data ≠ none ∧ r.code = none ∧ r.model ≠ none) ∧
  (r.success = false → r.error ≠ none ∧ r.data = none ∧ r.model = none)

theorem envelopeOneVariant_error (e : String) (p c : Option String) :
    envelopeOneVariant (createErrorResponse e p c) := by
  simp [envelopeOneVariant, createErrorResponse]

theorem envelopeOneVariant_success (d : RespData) (p m : String) :
    envelopeOneVariant (createSuccessResponse d p m) := by
  simp [envelopeOneVariant, createSuccessResponse]

theorem envelopeOneVariant_replyEnvelope (pn sel : String) (r : ChatReply) :
    envelopeOneVariant (replyEnvelope pn sel r) := by
  simp only [replyEnvelope]
  split
  · exact envelopeOneVariant_success _ _ _
  · exact envelopeOneVariant_error _ _ _

theorem chatCompletion_eq_noProvider (s : AIService) (msgs : List Message)
    (p : String) (m : Option String) (t : Rat) (mt : Nat)
    (api : CallArgs → CallOutcome) (h : getClient s p = none) :
    chatCompletion s msgs p m t mt api
      = createErrorResponse
          "No AI provider available. Please configure API keys in .env file." none none := by
  simp only [chatCompletion, h]

theorem chatCompletion_eq_reply (s : AIService) (msgs : List Message)
    (p : String) (m : Option String) (t : Rat) (mt : Nat)
    (api : CallArgs → CallOutcome) (pn : String) (r : ChatReply)
    (h : getClient s p = some pn)
    (ho : api (chatCallArgs pn msgs m t mt) = CallOutcome.reply r) :
    chatCompletion s msgs p m t mt api
      = replyEnvelope pn (pyOrModel m (getModel pn "chat")) r := by
  simp only [chatCompletion, h, ho]

theorem chatCompletion_eq_raised (s : AIService) (msgs : List Message)
    (p : String) (m : Option String) (t : Rat) (mt : Nat)
    (api : CallArgs → CallOutcome) (pn : String) (e : String)
    (h : getClient s p = some pn)
    (ho : api (chatCallArgs pn msgs m t mt) = CallOutcome.raised e) :
    chatCompletion s msgs p m t mt api = classifyChatError pn e := by
  simp only [chatCompletion, h, ho]

theorem chatCompletionSync_eq_noProvider (s : AIService) (msgs : List Message)
    (p : String) (m : Option String) (t : Rat) (mt : Nat)
    (api : CallArgs → CallOutcome) (h : getClient s p = none) :
    chatCompletionSync s msgs p m t mt api
      = createErrorResponse
          "No AI provider available. Please configure API keys in .env file." none none := by
  simp only [chatCompletionSync, h]

theorem chatCompletionSync_eq_reply (s : AIService) (msgs : List Message)
    (p : String) (m : Option String) (t : Rat) (mt : Nat)
    (api : CallArgs → CallOutcome) (pn : String) (r : ChatReply)
    (h : getClient s p = some pn)
    (ho : api (chatCallArgs pn msgs m t mt) = CallOutcome.reply r) :
    chatCompletionSync s msgs p m t mt api
      = replyEnvelope pn (pyOrModel m (getModel pn "chat")) r := by
  simp only [chatCompletionSync, h, ho]

theorem chatCompletionSync_eq_raised (s : AIService) (msgs : List Message)
    (p : String) (m : Option String) (t : Rat) (mt : Nat)
    (api : CallArgs → CallOutcome) (pn : String) (e : String)
    (h : getClient s p = some pn)
    (ho : api (chatCallArgs pn msgs m t mt) = CallOutcome.raised e) :
    chatCompletionSync s msgs p m t mt api
      = createErrorResponse e (some pn) (some "REQUEST_FAILED") := by
  simp only [chatCompletionSync, h, ho]

theorem envelopeOneVariant_classify (pn e : String) :
    envelopeOneVariant (classifyChatError pn e) := by
  unfold classifyChatError
  split
  · exact envelopeOneVariant_error _ _ _
  · split
    · exact envelopeOneVariant_error _ _ _
    · split
      · exact envelopeOneVariant_error _ _ _
      · exact envelopeOneVariant_error _ _ _

/-! ## Claims -/

/-- Claim C7: provider selection is deterministic with OpenRouter preferred over
OpenAI: after `_initialize_clients`, the active provider is `openrouter`
whenever the OpenRouter client exists, else `openai` whenever the OpenAI
client exists, else none; and `_get_client` on `auto` resolves to exactly
the active provider. -/
theorem provider_selection_prefers_openrouter (oaKey orKey : Option String)
    (oaOk orOk : Bool) :
    ((initializeClients oaKey orKey oaOk orOk).openrouterClient = true →
       (initializeClients oaKey orKey oaOk orOk).activeProvider = some "openrouter") ∧
    ((initializeClients oaKey orKey oaOk orOk).openrouterClient = false →
       (initializeClients oaKey orKey oaOk orOk).openaiClient = true →
       (initializeClients oaKey orKey oaOk orOk).activeProvider = some "openai") ∧
    ((initializeClients oaKey orKey oaOk orOk).openrouterClient = false →
       (initializeClients oaKey orKey oaOk orOk).openaiClient = false →
       (initializeClients oaKey orKey oaOk orOk).activeProvider = none) ∧
    getClient (initializeClients oaKey orKey oaOk orOk) "auto"
      = (initializeClients oaKey orKey oaOk orOk).activeProvider := by
  cases hoa : keyUsable oaKey && oaOk <;> cases hor : keyUsable orKey && orOk <;>
    simp [initializeClients, getClient, hoa, hor]

/-- Claim C7 witness at a concrete input: with both keys usable the active
provider is openrouter and `auto` resolves to it. -/
theorem provider_selection_prefers_openrouter_witness :
    (initializeClients (some "k1") (some "k2") true true).openrouterClient = true ∧
    (initializeClients (some "k1") (some "k2") true true).activeProvider = some "openrouter" :=
  ⟨by decide,
   (provider_selection_prefers_openrouter (some "k1") (some "k2") true true).1 (by decide)⟩

/-- Claim C2: error classification checks markers in fixed priority order, first
match winning: 401/invalid gives INVALID_API_KEY, else 429/rate limit gives
RATE_LIMIT, else 500/502/503 gives SERVICE_UNAVAILABLE, else the
unclassified code; in particular "Error 401: also 503" classifies as
INVALID_API_KEY, a message containing "429" plus unrelated text as
RATE_LIMIT, and the "invalid" / "rate limit" markers are case-insensitive. -/
theorem error_classification_priority (p msg : String) :
    ((strHasSub msg "401" || strHasSub (lowerStr msg) "invalid") = true →
       (classifyChatError p msg).code = some "INVALID_API_KEY") ∧
    ((strHasSub msg "401" || strHasSub (lowerStr msg) "invalid") = false →
       (strHasSub msg "429" || strHasSub (lowerStr msg) "rate limit") = true →
       (classifyChatError p msg).code = some "RATE_LIMIT") ∧
    ((strHasSub msg "401" || strHasSub (lowerStr msg) "invalid") = false →
       (strHasSub msg "429" || strHasSub (lowerStr msg) "rate limit") = false →
       (strHasSub msg "500" || strHasSub msg "502" || strHasSub msg "503") = true →
       (classifyChatError p msg).code = some "SERVICE_UNAVAILABLE") ∧
    ((strHasSub msg "401" || strHasSub (lowerStr msg) "invalid") = false →
       (strHasSub msg "429" || strHasSub (lowerStr msg) "rate limit") = false →
       (strHasSub msg "500" || strHasSub msg "502" || strHasSub msg "503") = false →
       (classifyChatError p msg).code = some "UNKNOWN_ERROR") ∧
    (classifyChatError "openai" "Error 401: also 503").code = some "INVALID_API_KEY" ∧
    (classifyChatError "openai" "got 429 from upstream relay").code = some "RATE_LIMIT" ∧
    (classifyChatError "openai" "INVALID request body").code = some "INVALID_API_KEY" ∧
    (classifyChatError "openai" "Rate Limit reached, slow down").code = some "RATE_LIMIT" := by
  refine ⟨?_, ?_, ?_, ?_, by decide, by decide, by decide, by decide⟩
  · intro h1
    simp [classifyChatError, h1, createErrorResponse]
  · intro h1 h2
    simp [classifyChatError, h1, h2, createErrorResponse]
  · intro h1 h2 h3
    simp [classifyChatError, h1, h2, h3, createErrorResponse]
  · intro h1 h2 h3
    simp [classifyChatError, h1, h2, h3, createErrorResponse]

/-- Claim C2 witness: each classification branch discharged at a concrete
message. -/
theorem error_classification_priority_witness :
    (classifyChatError "openai" "boom 401").code = some "INVALID_API_KEY" ∧
    (classifyChatError "openai" "boom 429").code = some "RATE_LIMIT" ∧
    (classifyChatError "openai" "boom 503").code = some "SERVICE_UNAVAILABLE" ∧
    (classifyChatError "openai" "boom").code = some "UNKNOWN_ERROR" :=
  ⟨(error_classification_priority "openai" "boom 401").1 (by decide),
   (error_classification_priority "openai" "boom 429").2.1 (by decide) (by decide),
   (error_classification_priority "openai" "boom 503").2.2.1 (by decide) (by decide) (by decide),
   (error_classification_priority "openai" "boom").2.2.2.1 (by decide) (by decide) (by decide)⟩

/-- Claim C4: for every input and every provider-call outcome, including a raised
exception, both completion operations return an envelope with exactly one
populated variant; the embedding is total, so no exception crosses the
gateway boundary. -/
theorem completion_always_returns_envelope (s : AIService) (msgs : List Message)
    (p : String) (m : Option String) (t : Rat) (mt : Nat)
    (api : CallArgs → CallOutcome) :
    envelopeOneVariant (chatCompletion s msgs p m t mt api) ∧
    envelopeOneVariant (chatCompletionSync s msgs p m t mt api) := by
  constructor
  · cases hg : getClient s p with
    | none =>
      rw [chatCompletion_eq_noProvider s msgs p m t mt api hg]
      exact envelopeOneVariant_error _ _ _
    | some pn =>
      cases ho : api (chatCallArgs pn msgs m t mt) with
      | reply r =>
        rw [chatCompletion_eq_reply s msgs p m t mt api pn r hg ho]
        exact envelopeOneVariant_replyEnvelope _ _ _
      | raised e =>
        rw [chatCompletion_eq_raised s msgs p m t mt api pn e hg ho]
        exact envelopeOneVariant_classify _ _
  · cases hg : getClient s p with
    | none =>
      rw [chatCompletionSync_eq_noProvider s msgs p m t mt api hg]
      exact envelopeOneVariant_error _ _ _
    | some pn =>
      cases ho : api (chatCallArgs pn msgs m t mt) with
      | reply r =>
        rw [chatCompletionSync_eq_reply s msgs p m t mt api pn r hg ho]
        exact envelopeOneVariant_replyEnvelope _ _ _
      | raised e =>
        rw [chatCompletionSync_eq_raised s msgs p m t mt api pn e hg ho]
        exact envelopeOneVariant_error _ _ _



theorem contentTruthy_false_of_empty (o : Option String)
    (h : o = none ∨ o = some "") : contentTruthy o = false := by
  rcases h with h | h <;> simp [contentTruthy, h]

theorem replyEnvelope_noContent (pn sel : String) (r : ChatReply)
    (h : replyContent r = none ∨ replyContent r = some "") :
    replyEnvelope pn sel r
      = createErrorResponse "No content returned from AI service" (some pn) none := by
  simp only [replyEnvelope, contentTruthy_false_of_empty _ h, Bool.false_eq_true, if_false]

theorem replyEnvelope_content (pn sel : String) (r : ChatReply) (c : String)
    (h : replyContent r = some c) (hne : c ≠ "") :
    replyEnvelope pn sel r
      = createSuccessResponse
          (RespData.payload
            { content := pyStrip c, usage := r.usage, finishReason := replyFinishReason r })
          pn sel := by
  have ht : contentTruthy (some c) = true := by
    simp [contentTruthy, hne]
  simp only [replyEnvelope, h, ht, if_true, Option.getD_some]

/-- Claim C5: a provider reply with empty or absent content yields, on both
completion paths, a failure envelope with exactly the error
"No content returned from AI service", the resolved provider, and no
classification code. -/
theorem empty_content_yields_no_content_failure (s : AIService) (msgs : List Message)
    (p : String) (m : Option String) (t : Rat) (mt : Nat) (pn : String) (r : ChatReply)
    (hg : getClient s p = some pn)
    (hc : replyContent r = none ∨ replyContent r = some "") :
    chatCompletion s msgs p m t mt (fun _ => CallOutcome.reply r)
      = createErrorResponse "No content returned from AI service" (some pn) none ∧
    chatCompletionSync s msgs p m t mt (fun _ => CallOutcome.reply r)
      = createErrorResponse "No content returned from AI service" (some pn) none := by
  constructor
  · rw [chatCompletion_eq_reply s msgs p m t mt _ pn r hg rfl]
    exact replyEnvelope_noContent _ _ _ hc
  · rw [chatCompletionSync_eq_reply s msgs p m t mt _ pn r hg rfl]
    exact replyEnvelope_noContent _ _ _ hc

/-- Claim C5 witness: a reply with no choices at all produces the no-content
failure envelope. -/
theorem empty_content_yields_no_content_failure_witness :
    chatCompletion
        { openaiClient := true, openrouterClient := false, activeProvider := some "openai" }
        [] "auto" none 0 2000
        (fun _ => CallOutcome.reply { choices := [], usage := none })
      = createErrorResponse "No content returned from AI service" (some "openai") none :=
  (empty_content_yields_no_content_failure
    { openaiClient := true, openrouterClient := false, activeProvider := some "openai" }
    [] "auto" none 0 2000 "openai" { choices := [], usage := none }
    (by decide) (Or.inl rfl)).1

/-- Claim C8: a successful provider reply with non-empty content produces, on
both completion paths, a success envelope whose content is the reply
content stripped of leading and trailing whitespace; and the message list
handed to the provider call is the caller list unmodified. -/
theorem success_content_is_stripped (s : AIService) (msgs : List Message)
    (p : String) (m : Option String) (t : Rat) (mt : Nat) (pn : String)
    (r : ChatReply) (c : String)
    (hg : getClient s p = some pn)
    (hc : replyContent r = some c) (hne : c ≠ "") :
    chatCompletion s msgs p m t mt (fun _ => CallOutcome.reply r)
      = createSuccessResponse
          (RespData.payload
            { content := pyStrip c, usage := r.usage, finishReason := replyFinishReason r })
          pn (pyOrModel m (getModel pn "chat")) ∧
    chatCompletionSync s msgs p m t mt (fun _ => CallOutcome.reply r)
      = createSuccessResponse
          (RespData.payload
            { content := pyStrip c, usage := r.usage, finishReason := replyFinishReason r })
          pn (pyOrModel m (getModel pn "chat")) ∧
    (chatCallArgs pn msgs m t mt).messages = msgs := by
  refine ⟨?_, ?_, rfl⟩
  · rw [chatCompletion_eq_reply s msgs p m t mt _ pn r hg rfl]
    exact replyEnvelope_content _ _ _ _ hc hne
  · rw [chatCompletionSync_eq_reply s msgs p m t mt _ pn r hg rfl]
    exact replyEnvelope_content _ _ _ _ hc hne

/-- Claim C8 witness: content "  hi  " comes back trimmed to "hi". -/
theorem success_content_is_stripped_witness :
    chatCompletion
        { openaiClient := true, openrouterClient := false, activeProvider := some "openai" }
        [] "auto" none 0 2000
        (fun _ => CallOutcome.reply
          { choices := [{ message := { content := some "  hi  " }, finishReason := some "stop" }],
            usage := none })
      = createSuccessResponse
          (RespData.payload { content := "hi", usage := none, finishReason := some "stop" })
          "openai" "gpt-3.5-turbo" := by
  have h := (success_content_is_stripped
    { openaiClient := true, openrouterClient := false, activeProvider := some "openai" }
    [] "auto" none 0 2000 "openai"
    { choices := [{ message := { content := some "  hi  " }, finishReason := some "stop" }],
      usage := none }
    "  hi  " (by decide) rfl (by decide)).1
  rw [h]
  decide

theorem pyStrip_eq_empty_of_all_space (c : String)
    (h : ∀ ch ∈ c.data, pySpace ch = true) : pyStrip c = "" := by
  have h1 : c.data.dropWhile pySpace = [] :=
    List.dropWhile_eq_nil_iff.mpr (fun x hx => h x hx)
  simp [pyStrip, pyStripList, h1]

/-- Claim C9: a provider reply whose content is a non-empty whitespace-only
string takes the success branch (Python truthiness only rejects `None` and
the empty string), so both completion paths return a success envelope whose
content is the empty string. -/
theorem whitespace_only_content_succeeds (s : AIService) (msgs : List Message)
    (p : String) (m : Option String) (t : Rat) (mt : Nat) (pn : String)
    (r : ChatReply) (c : String)
    (hg : getClient s p = some pn)
    (hc : replyContent r = some c) (hne : c ≠ "")
    (hws : ∀ ch ∈ c.data, pySpace ch = true) :
    chatCompletion s msgs p m t mt (fun _ => CallOutcome.reply r)
      = createSuccessResponse
          (RespData.payload
            { content := "", usage := r.usage, finishReason := replyFinishReason r })
          pn (pyOrModel m (getModel pn "chat")) ∧
    chatCompletionSync s msgs p m t mt (fun _ => CallOutcome.reply r)
      = createSuccessResponse
          (RespData.payload
            { content := "", usage := r.usage, finishReason := replyFinishReason r })
          pn (pyOrModel m (getModel pn "chat")) := by
  have hstrip : pyStrip c = "" := pyStrip_eq_empty_of_all_space c hws
  constructor
  · rw [chatCompletion_eq_reply s msgs p m t mt _ pn r hg rfl,
        replyEnvelope_content _ _ _ _ hc hne, hstrip]
  · rw [chatCompletionSync_eq_reply s msgs p m t mt _ pn r hg rfl,
        replyEnvelope_content _ _ _ _ hc hne, hstrip]

/-- Claim C9 witness: content " " (one space) produces a success envelope with
content "". -/
theorem whitespace_only_content_succeeds_witness :
    (chatCompletion
        { openaiClient := true, openrouterClient := false, activeProvider := some "openai" }
        [] "auto" none 0 2000
        (fun _ => CallOutcome.reply
          { choices := [{ message := { content := some " " }, finishReason := none }],
            usage := none })).success = true ∧
    (chatCompletion
        { openaiClient := true, openrouterClient := false, activeProvider := some "openai" }
        [] "auto" none 0 2000
        (fun _ => CallOutcome.reply
          { choices := [{ message := { content := some " " }, finishReason := none }],
            usage := none })).data
      = some (RespData.payload { content := "", usage := none, finishReason := none }) := by
  have h := (whitespace_only_content_succeeds
    { openaiClient := true, openrouterClient := false, activeProvider := some "openai" }
    [] "auto" none 0 2000 "openai"
    { choices := [{ message := { content := some " " }, finishReason := none }],
      usage := none }
    " " (by decide) rfl (by decide) (by decide)).1
  rw [h]
  exact ⟨rfl, rfl⟩



/-- Claim C10: an explicit empty-string model is not used verbatim: both
completion operations behave exactly as if no model was supplied, the call
arguments carry the resolved provider default chat model instead, and for a
provider identifier absent from `PROVIDER_CONFIGS` the default model
resolves to "gpt-3.5-turbo". -/
theorem empty_model_falls_back_to_default :
    (∀ (s : AIService) (msgs : List Message) (p : String) (t : Rat) (mt : Nat)
        (api : CallArgs → CallOutcome),
       chatCompletion s msgs p (some "") t mt api = chatCompletion s msgs p none t mt api) ∧
    (∀ (s : AIService) (msgs : List Message) (p : String) (t : Rat) (mt : Nat)
        (api : CallArgs → CallOutcome),
       chatCompletionSync s msgs p (some "") t mt api
         = chatCompletionSync s msgs p none t mt api) ∧
    (∀ (pn : String) (msgs : List Message) (t : Rat) (mt : Nat),
       (chatCallArgs pn msgs (some "") t mt).model = getModel pn "chat") ∧
    (∀ p mt, p ≠ "openai" → p ≠ "openrouter" → getModel p mt = "gpt-3.5-turbo") := by
  refine ⟨?_, ?_, ?_, ?_⟩
  · intro s msgs p t mt api
    simp [chatCompletion, chatCallArgs, pyOrModel]
  · intro s msgs p t mt api
    simp [chatCompletionSync, chatCallArgs, pyOrModel]
  · intro pn msgs t mt
    simp [chatCallArgs, pyOrModel]
  · intro p mt h1 h2
    simp [getModel, providerModels, h1, h2]

/-- Claim C10 witness: the unknown provider identifier "nonexistent" resolves to
the default model "gpt-3.5-turbo". -/
theorem empty_model_falls_back_to_default_witness :
    getModel "nonexistent" "chat" = "gpt-3.5-turbo" :=
  empty_model_falls_back_to_default.2.2.2 "nonexistent" "chat" (by decide) (by decide)

theorem getClient_explicit_none (s : AIService) (p : String)
    (hp : p ≠ "auto")
    (h1 : p = "openai" → s.openaiClient = false)
    (h2 : p = "openrouter" → s.openrouterClient = false) :
    getClient s p = none := by
  simp only [getClient, hp, if_neg, beq_iff_eq]
  by_cases e1 : p = "openai"
  · simp [e1, h1 e1]
  · by_cases e2 : p = "openrouter"
    · simp [e1, e2, h2 e2]
    · simp [e1, e2]

/-- Claim C3 counterexample: with no clients configured, an explicit request for
"openai" produces a failure envelope whose code field is unset (`none`),
not the code `PROVIDER_UNAVAILABLE` the claim names; the same holds on the
async path. -/
theorem explicit_unavailable_code_unset :
    (chatCompletionSync
        { openaiClient := false, openrouterClient := false, activeProvider := none }
        [{ role := "user", content := "Hi" }] "openai" none 0 2000
        (fun _ => CallOutcome.raised "boom")).success = false ∧
    (chatCompletionSync
        { openaiClient := false, openrouterClient := false, activeProvider := none }
        [{ role := "user", content := "Hi" }] "openai" none 0 2000
        (fun _ => CallOutcome.raised "boom")).code = none ∧
    ¬ (chatCompletionSync
        { openaiClient := false, openrouterClient := false, activeProvider := none }
        [{ role := "user", content := "Hi" }] "openai" none 0 2000
        (fun _ => CallOutcome.raised "boom")).code = some "PROVIDER_UNAVAILABLE" := by
  decide

/-- Claim C3 amended: an explicit provider identifier never resolves to a
different provider, and when the named provider has no client handle both
completion operations return, for every oracle, the fixed
"No AI provider available" failure envelope (provider and code unset), so
no transport is ever contacted. -/
theorem explicit_unavailable_no_fallback (s : AIService) (p : String)
    (hp : p ≠ "auto") :
    (∀ q, getClient s p = some q → q = p) ∧
    ((p = "openai" → s.openaiClient = false) →
     (p = "openrouter" → s.openrouterClient = false) →
     ∀ (msgs : List Message) (m : Option String) (t : Rat) (mt : Nat)
       (api : CallArgs → CallOutcome),
       chatCompletionSync s msgs p m t mt api
         = createErrorResponse
             "No AI provider available. Please configure API keys in .env file." none none ∧
       chatCompletion s msgs p m t mt api
         = createErrorResponse
             "No AI provider available. Please configure API keys in .env file." none none) := by
  constructor
  · intro q hq
    simp only [getClient, hp, if_neg, beq_iff_eq] at hq
    by_cases e1 : p = "openai"
    · simp [e1] at hq
      rw [e1]
      exact hq.2.symm
    · by_cases e2 : p = "openrouter"
      · simp [e1, e2] at hq
        rw [e2]
        exact hq.2.symm
      · simp [e1, e2] at hq
  · intro h1 h2 msgs m t mt api
    have hg := getClient_explicit_none s p hp h1 h2
    exact ⟨chatCompletionSync_eq_noProvider s msgs p m t mt api hg,
           chatCompletion_eq_noProvider s msgs p m t mt api hg⟩

/-- Claim C3 witness: requesting "openai" on a service with no clients yields the
no-provider failure envelope regardless of the oracle. -/
theorem explicit_unavailable_no_fallback_witness :
    chatCompletionSync
        { openaiClient := false, openrouterClient := false, activeProvider := none }
        [] "openai" none 0 2000 (fun _ => CallOutcome.raised "boom")
      = createErrorResponse
          "No AI provider available. Please configure API keys in .env file." none none :=
  ((explicit_unavailable_no_fallback
      { openaiClient := false, openrouterClient := false, activeProvider := none }
      "openai" (by decide)).2
    (fun _ => rfl) (fun _ => rfl)
    [] none 0 2000 (fun _ => CallOutcome.raised "boom")).1


theorem getClient_explicit_some (s : AIService) (p q : String)
    (hp : p ≠ "auto") (hq : getClient s p = some q) : q = p := by
  simp only [getClient, hp, if_neg, beq_iff_eq] at hq
  by_cases e1 : p = "openai"
  · simp [e1] at hq
    rw [e1]
    exact hq.2.symm
  · by_cases e2 : p = "openrouter"
    · simp [e1, e2] at hq
      rw [e2]
      exact hq.2.symm
    · simp [e1, e2] at hq

/-- Claim C1 counterexample: on a raised provider error ("401") the async path
classifies the error and returns the canned invalid-key message with code
INVALID_API_KEY, while the sync path returns the raw message with code
REQUEST_FAILED, so the two envelopes are not identical. -/
theorem sync_async_differ_on_raised :
    chatCompletion
        { openaiClient := true, openrouterClient := true, activeProvider := some "openrouter" }
        [{ role := "user", content := "Hi" }] "auto" none 0 2000
        (fun _ => CallOutcome.raised "401")
      ≠ chatCompletionSync
        { openaiClient := true, openrouterClient := true, activeProvider := some "openrouter" }
        [{ role := "user", content := "Hi" }] "auto" none 0 2000
        (fun _ => CallOutcome.raised "401") := by
  decide

/-- Claim C1 amended: the synchronous and asynchronous completion operations
return identical envelopes on every path where the provider call does not
raise (no client resolved, reply with content, reply without content); only
the raised-exception handlers differ, async classifying the error and sync
returning the raw message with code REQUEST_FAILED. -/
theorem sync_async_agree_unless_raised (s : AIService) (msgs : List Message)
    (p : String) (m : Option String) (t : Rat) (mt : Nat)
    (api : CallArgs → CallOutcome)
    (h : ∀ a, (api a).isReply = true) :
    chatCompletion s msgs p m t mt api = chatCompletionSync s msgs p m t mt api := by
  cases hg : getClient s p with
  | none =>
    rw [chatCompletion_eq_noProvider s msgs p m t mt api hg,
        chatCompletionSync_eq_noProvider s msgs p m t mt api hg]
  | some pn =>
    cases ho : api (chatCallArgs pn msgs m t mt) with
    | reply r =>
      rw [chatCompletion_eq_reply s msgs p m t mt api pn r hg ho,
          chatCompletionSync_eq_reply s msgs p m t mt api pn r hg ho]
    | raised e =>
      have hr := h (chatCallArgs pn msgs m t mt)
      rw [ho] at hr
      simp [CallOutcome.isReply] at hr

/-- Claim C1 witness: with a constant reply oracle the two paths agree. -/
theorem sync_async_agree_unless_raised_witness :
    chatCompletion
        { openaiClient := true, openrouterClient := true, activeProvider := some "openrouter" }
        [] "auto" none 0 2000
        (fun _ => CallOutcome.reply { choices := [], usage := none })
      = chatCompletionSync
        { openaiClient := true, openrouterClient := true, activeProvider := some "openrouter" }
        [] "auto" none 0 2000
        (fun _ => CallOutcome.reply { choices := [], usage := none }) :=
  sync_async_agree_unless_raised _ [] "auto" none 0 2000 _ (fun _ => rfl)

theorem validateProvider_eq_noProvider (s : AIService) (p : String)
    (api : CallArgs → CallOutcome) (h : getClient s p = none) :
    validateProvider s p api
      = createErrorResponse ("Provider " ++ p ++ " not available or not configured")
          none none := by
  simp only [validateProvider, h]

theorem validateProvider_eq_reply (s : AIService) (p : String)
    (api : CallArgs → CallOutcome) (pn : String) (r : ChatReply)
    (h : getClient s p = some pn)
    (ho : api (validateCallArgs pn) = CallOutcome.reply r) :
    validateProvider s p api
      = if contentTruthy (replyContent r) then
          createSuccessResponse (RespData.boolVal true) pn (getModel pn "chat")
        else
          createErrorResponse "Provider validation failed" (some pn) none := by
  simp only [validateProvider, h, ho]

theorem validateProvider_eq_raised (s : AIService) (p : String)
    (api : CallArgs → CallOutcome) (pn : String) (e : String)
    (h : getClient s p = some pn)
    (ho : api (validateCallArgs pn) = CallOutcome.raised e) :
    validateProvider s p api
      = createErrorResponse ("Provider validation failed: " ++ e) (some p)
          (some "VALIDATION_FAILED") := by
  simp only [validateProvider, h, ho]

/-- Claim C6 counterexample: with an available OpenRouter client, a validation
call that succeeds but returns no content produces a failure envelope whose
code is unset (`none`), not the VALIDATION_FAILED code the claim names for
every non-success outcome. -/
theorem validate_no_content_code_unset :
    (validateProvider
        { openaiClient := false, openrouterClient := true, activeProvider := some "openrouter" }
        "openrouter" (fun _ => CallOutcome.reply { choices := [], usage := none })).success
      = false ∧
    (validateProvider
        { openaiClient := false, openrouterClient := true, activeProvider := some "openrouter" }
        "openrouter" (fun _ => CallOutcome.reply { choices := [], usage := none })).code
      = none ∧
    ¬ (validateProvider
        { openaiClient := false, openrouterClient := true, activeProvider := some "openrouter" }
        "openrouter" (fun _ => CallOutcome.reply { choices := [], usage := none })).code
      = some "VALIDATION_FAILED" := by
  decide

/-- Claim C6 amended: validateProvider resolves the named identifier with no
fallback to another provider, issues one minimal completion (single "Hello"
user message, max_tokens 5), and reports success (data `true`) when content
is returned; a raised provider error yields a failure envelope with code
VALIDATION_FAILED, while a successful call with no content yields a failure
envelope with error "Provider validation failed" and no code; when the
named provider has no client handle it returns a failure envelope that is
the same for every oracle, so no network call is attempted. -/
theorem validate_provider_behavior (s : AIService) (p : String) :
    ((validateCallArgs p).messages = [{ role := "user", content := "Hello" }] ∧
     (validateCallArgs p).maxTokens = 5) ∧
    (p ≠ "auto" → ∀ q, getClient s p = some q → q = p) ∧
    (getClient s p = none →
       ∀ api, validateProvider s p api
         = createErrorResponse ("Provider " ++ p ++ " not available or not configured")
             none none) ∧
    (∀ pn r, getClient s p = some pn →
       (contentTruthy (replyContent r) = true →
          validateProvider s p (fun _ => CallOutcome.reply r)
            = createSuccessResponse (RespData.boolVal true) pn (getModel pn "chat")) ∧
       (contentTruthy (replyContent r) = false →
          validateProvider s p (fun _ => CallOutcome.reply r)
            = createErrorResponse "Provider validation failed" (some pn) none)) ∧
    (∀ pn e, getClient s p = some pn →
       validateProvider s p (fun _ => CallOutcome.raised e)
         = createErrorResponse ("Provider validation failed: " ++ e) (some p)
             (some "VALIDATION_FAILED")) := by
  refine ⟨⟨rfl, rfl⟩, ?_, ?_, ?_, ?_⟩
  · intro hp q hq
    exact getClient_explicit_some s p q hp hq
  · intro hg api
    exact validateProvider_eq_noProvider s p api hg
  · intro pn r hg
    constructor
    · intro ht
      rw [validateProvider_eq_reply s p _ pn r hg rfl]
      simp [ht]
    · intro hf
      rw [validateProvider_eq_reply s p _ pn r hg rfl]
      simp [hf]
  · intro pn e hg
    exact validateProvider_eq_raised s p _ pn e hg rfl

/-- Claim C6 witness: validating "openai" with no OpenAI client returns the
not-configured failure envelope even under an oracle that would raise. -/
theorem validate_provider_behavior_witness :
    validateProvider
        { openaiClient := false, openrouterClient := false, activeProvider := none }
        "openai" (fun _ => CallOutcome.raised "net down")
      = createErrorResponse ("Provider " ++ "openai" ++ " not available or not configured")
          none none :=
  (validate_provider_behavior
      { openaiClient := false, openrouterClient := false, activeProvider := none }
      "openai").2.2.1 (by decide) (fun _ => CallOutcome.raised "net down")


/-- Claim C4 witness: the envelope shape at a concrete input and a raising
oracle. -/
theorem completion_always_returns_envelope_witness :
    envelopeOneVariant
      (chatCompletion
        { openaiClient := true, openrouterClient := false, activeProvider := some "openai" }
        [] "auto" none 0 2000 (fun _ => CallOutcome.raised "oops")) :=
  (completion_always_returns_envelope
    { openaiClient := true, openrouterClient := false, activeProvider := some "openai" }
    [] "auto" none 0 2000 (fun _ => CallOutcome.raised "oops")).1

end AIGateway
